import Mathlib

/-!
# Verification of the IGC record parser (`src/igc.py`)

This file shallowly embeds the IGC parser of `igc.py` in Lean and settles the
frozen claims about it.

Modelling conventions:
* Python strings are modelled as `List Char` (`PyStr`); slicing `s[a:b]`,
  `s[a:]`, `s[2:-1]`, `str.strip`, `str.startswith` are modelled by
  `pySlice`, `List.drop`, `drop`/`dropLast`, `pyStrip`, `pyStartsWith`.
* Python `float` arithmetic on the decoded fields is modelled as exact
  rational arithmetic.  Values are carried as unreduced fractions (`PyFloat`,
  a numerator/denominator pair with the textbook field operations) so that
  every decoder is kernel-computable; `PyFloat.toRat` gives the rational
  value of such a fraction, and value-level claims are stated through it.
  Floating-point rounding itself is not modelled; no claim in this
  development depends on it (the discrepancies found are off by a factor of
  1000, far beyond double rounding error).
* `datetime.strptime` with the formats used by the source (`"%H%M%S"` and
  `"%d%m%y"`) is modelled by `parseTimeHHMMSS` and `parseDateDDMMYY`,
  including strptime's 1-to-2-digit flexibility for `%H`/`%M`/`%S`/`%d`/`%m`
  (the underlying regex is leftmost-greedy with backtracking and must
  consume the whole string) and CPython's `%y` pivot (00-68 -> 20xx,
  69-99 -> 19xx).
* Exceptions raised by the Python code are modelled by the typed error kinds
  of the spec (`Err`); a raised exception aborts the scan loop, which is
  modelled by `parse` returning the state at the abort point together with
  the error.
* `logger.warning` calls made during record classification are modelled as a
  `warnings` list carried in the parser state.  (`logger.debug` calls and the
  never-invoked `_check_all_data_parsed` are not modelled.)
-/

set_option autoImplicit false

namespace IGC

/-- Python strings, modelled as lists of characters. -/
abbrev PyStr := List Char

/-- The whitespace characters stripped by Python's `str.strip()` (ASCII part;
the inputs in this development contain no other whitespace). -/
def isPySpace (c : Char) : Bool :=
  c == ' ' || c == '\t' || c == '\n' || c == '\r' || c == '\x0b' || c == '\x0c'

/-- Python `s.strip()`: remove leading and trailing whitespace. -/
def pyStrip (l : PyStr) : PyStr :=
  ((l.dropWhile isPySpace).reverse.dropWhile isPySpace).reverse

/-- Python `s[a:b]` for `0 <= a <= b` (out-of-range indices clamp). -/
def pySlice (l : PyStr) (a b : Nat) : PyStr :=
  (l.drop a).take (b - a)

/-- Python `s.startswith(p)`. -/
def pyStartsWith (l p : PyStr) : Bool :=
  p.isPrefixOf l

/-- Value of a decimal digit character. -/
def digitVal (c : Char) : Nat := c.toNat - 48

/-- Value of a string of decimal digits. -/
def natOfDigits (l : PyStr) : Nat :=
  l.foldl (fun a c => 10 * a + digitVal c) 0

/-- An exact rational value, kept as an unreduced fraction so that the kernel
can evaluate the decoders.  Models the values flowing through Python `float`
arithmetic in `_parse_position`. -/
structure PyFloat where
  num : Int
  den : Int
  deriving DecidableEq

/-- The rational value of a `PyFloat`. -/
def PyFloat.toRat (f : PyFloat) : ℚ := (f.num : ℚ) / (f.den : ℚ)

/-- Exact addition of fractions. -/
def PyFloat.add (f g : PyFloat) : PyFloat :=
  ⟨f.num * g.den + g.num * f.den, f.den * g.den⟩

/-- Exact division of fractions. -/
def PyFloat.div (f g : PyFloat) : PyFloat :=
  ⟨f.num * g.den, f.den * g.num⟩

/-- Exact negation of a fraction. -/
def PyFloat.neg (f : PyFloat) : PyFloat :=
  ⟨-f.num, f.den⟩

/-- Python `float(s)` restricted to finite decimal literals: surrounding
whitespace is stripped, then an optional sign, an integer part and an
optional fractional part are accepted (at least one digit overall).
Exponents, `inf`/`nan` and underscore separators are not modelled; no input
in this development uses them. -/
def parseFloat (s : PyStr) : Option PyFloat :=
  let core : PyStr → Int → Option PyFloat := fun u sign =>
    let ip := u.takeWhile Char.isDigit
    let rest := u.drop ip.length
    match rest with
    | [] => if ip.isEmpty then none else some ⟨sign * natOfDigits ip, 1⟩
    | c :: fp =>
      if c == '.' && fp.all Char.isDigit && !(ip.isEmpty && fp.isEmpty) then
        some ⟨sign * (natOfDigits ip * 10 ^ fp.length + natOfDigits fp),
              (10 : Int) ^ fp.length⟩
      else none
  match pyStrip s with
  | '-' :: u => core u (-1)
  | '+' :: u => core u 1
  | u => core u 1

/-- A calendar date (`datetime`'s date component). -/
structure Date where
  year : Nat
  month : Nat
  day : Nat
  deriving DecidableEq

/-- A time of day (`datetime`'s time component). -/
structure Time where
  hour : Nat
  minute : Nat
  second : Nat
  deriving DecidableEq

/-- An absolute timestamp: the flight date combined with a time of day
(the result of `strptime(...).replace(year=..., month=..., day=...)`). -/
structure Timestamp where
  date : Date
  time : Time
  deriving DecidableEq

/-- Range validation performed by the `datetime` constructor on a
time of day. -/
def mkTime (h m s : Nat) : Option Time :=
  if h ≤ 23 ∧ m ≤ 59 ∧ s ≤ 59 then some ⟨h, m, s⟩ else none

/-- `datetime.strptime(s, "%H%M%S")`: each of `%H`, `%M`, `%S` matches one or
two digits, the leftmost-greedy regex must consume the whole string (so only
lengths 3-6 of an all-digit string match, with the splits below), and the
field values are range-checked. -/
def parseTimeHHMMSS (s : PyStr) : Option Time :=
  if s.all Char.isDigit then
    match s with
    | [a, b, c] => mkTime (digitVal a) (digitVal b) (digitVal c)
    | [a, b, c, d] => mkTime (10 * digitVal a + digitVal b) (digitVal c) (digitVal d)
    | [a, b, c, d, e] =>
        mkTime (10 * digitVal a + digitVal b) (10 * digitVal c + digitVal d) (digitVal e)
    | [a, b, c, d, e, f] =>
        mkTime (10 * digitVal a + digitVal b) (10 * digitVal c + digitVal d)
          (10 * digitVal e + digitVal f)
    | _ => none
  else none

/-- Number of days in a month, as validated by the `datetime` constructor. -/
def daysInMonth (y m : Nat) : Nat :=
  if m = 2 then (if y % 4 = 0 ∧ (y % 100 ≠ 0 ∨ y % 400 = 0) then 29 else 28)
  else if m = 4 ∨ m = 6 ∨ m = 9 ∨ m = 11 then 30 else 31

/-- Calendar validation performed by the `datetime` constructor, together
with CPython's `%y` century pivot: a two-digit year 00-68 means 2000-2068
and 69-99 means 1969-1999. -/
def mkDate (d m y2 : Nat) : Option Date :=
  let y := if y2 ≤ 68 then 2000 + y2 else 1900 + y2
  if 1 ≤ m ∧ m ≤ 12 ∧ 1 ≤ d ∧ d ≤ daysInMonth y m then some ⟨y, m, d⟩ else none

/-- `datetime.strptime(s, "%d%m%y")`: `%d` and `%m` match one or two digits,
`%y` exactly two; the leftmost-greedy regex with backtracking must consume
the whole string (so only lengths 4-6 of an all-digit string match, with the
splits below), and the result is calendar-validated. -/
def parseDateDDMMYY (s : PyStr) : Option Date :=
  if s.all Char.isDigit then
    match s with
    | [a, b, c, d] => mkDate (digitVal a) (digitVal b) (10 * digitVal c + digitVal d)
    | [a, b, c, d, e] =>
        mkDate (10 * digitVal a + digitVal b) (digitVal c) (10 * digitVal d + digitVal e)
    | [a, b, c, d, e, f] =>
        mkDate (10 * digitVal a + digitVal b) (10 * digitVal c + digitVal d)
          (10 * digitVal e + digitVal f)
    | _ => none
  else none

/-- The typed error kinds of the spec's error taxonomy, standing for the
exceptions raised by the source: the `ValueError` of the `B`-line length
check (`RecordTooShort`), the `ValueError`s of the flight-date branch
(`InvalidDateFormat`), the `AttributeError` from reading the still-unset
`flight_date` attribute (`DateNotYetKnown`), and the `ValueError`s raised by
`strptime` on the time field or by `float()` on a coordinate or altitude
field (`MalformedNumericField`). -/
inductive Err where
  | RecordTooShort
  | InvalidDateFormat
  | DateNotYetKnown
  | MalformedNumericField
  deriving DecidableEq

/-- `PositionRecord` of `igc.py` (one per valid `B` line). -/
structure PositionRecord where
  timestamp : Timestamp
  latitude : PyFloat
  longitude : PyFloat
  av_flag : Bool
  pressure_altitude : PyFloat
  gps_altitude : PyFloat
  deriving DecidableEq

/-- The mutable state of an `IGCParser` instance: the metadata attributes,
the accumulated position records, and the warnings emitted by the record
classifier.  `flight_date` is an attribute that `__init__` never sets, so it
is `none` until an `HFDTEDATE` record assigns it. -/
structure IGCParser where
  flight_date : Option Date
  gps_datum : PyStr
  pilot_name : PyStr
  manufacturer_id : PyStr
  logger_id : PyStr
  additional_info : PyStr
  position_records : List PositionRecord
  warnings : List PyStr
  deriving DecidableEq

/-- The parser state right after `__init__` runs `self.position_records = []`
(string attributes default to `""`; `flight_date` is unset). -/
def initState : IGCParser :=
  { flight_date := none, gps_datum := [], pilot_name := [],
    manufacturer_id := [], logger_id := [], additional_info := [],
    position_records := [], warnings := [] }

/-- `_parse_manufacturer`: unconditionally assign the three fixed-column
slices of the `A` record (no length check and no failure in the source). -/
def parse_manufacturer (self : IGCParser) (line : PyStr) : IGCParser × Option Err :=
  ({ self with
      manufacturer_id := pyStrip (pySlice line 1 4),
      logger_id := pyStrip (pySlice line 4 7),
      additional_info := pyStrip (line.drop 7) }, none)

/-- `_parse_metadata`: prefix dispatch over `H` records; only the
`HFDTEDATE` branch can fail. -/
def parse_metadata (self : IGCParser) (line : PyStr) : IGCParser × Option Err :=
  if pyStartsWith line ("HFPLTPILOT".toList) = true then
    ({ self with pilot_name := pyStrip (line.drop 11) }, none)
  else if pyStartsWith line ("HFDTM100GPSDATUM".toList) = true then
    ({ self with gps_datum := pyStrip (line.drop 17) }, none)
  else if pyStartsWith line ("HFDTEDATE".toList) = true then
    let flight_date_str := pyStrip (line.drop 10)
    if flight_date_str.length = 6 then
      match parseDateDDMMYY flight_date_str with
      | some d => ({ self with flight_date := some d }, none)
      | none => (self, some Err.InvalidDateFormat)
    else (self, some Err.InvalidDateFormat)
  else (self, none)

/-- Lines 172-175 of the source:
`latitude = float(latitude_str[:2]) + float(latitude_str[2:-1]) / 60.0`,
negated when the final character is `S`.  (When both `float` calls succeed
the string is nonempty, so `getLast?` faithfully models `latitude_str[-1]`.) -/
def decodeLat (latitude_str : PyStr) : Option PyFloat :=
  match parseFloat (latitude_str.take 2), parseFloat ((latitude_str.drop 2).dropLast) with
  | some degs, some mins =>
    let v := PyFloat.add degs (PyFloat.div mins ⟨60, 1⟩)
    some (if latitude_str.getLast? = some 'S' then PyFloat.neg v else v)
  | _, _ => none

/-- Lines 177-180 of the source: same scheme as `decodeLat` with a three
character degree field, negated when the final character is `W`. -/
def decodeLon (longitude_str : PyStr) : Option PyFloat :=
  match parseFloat (longitude_str.take 3), parseFloat ((longitude_str.drop 3).dropLast) with
  | some degs, some mins =>
    let v := PyFloat.add degs (PyFloat.div mins ⟨60, 1⟩)
    some (if longitude_str.getLast? = some 'W' then PyFloat.neg v else v)
  | _, _ => none

/-- The field decoding of `_parse_position` after the timestamp has been
parsed and the flight date is known: latitude, longitude, AV flag and the
two altitudes, assembled into a `PositionRecord`. -/
def decodeFields (t : Time) (d : Date) (line : PyStr) : Option PositionRecord :=
  let latitude_str := pyStrip (pySlice line 7 15)
  let longitude_str := pyStrip (pySlice line 15 24)
  let av_flag_str := pyStrip (pySlice line 24 25)
  let pressure_altitude_str := pyStrip (pySlice line 25 30)
  let gps_altitude_str := pyStrip (pySlice line 30 35)
  match decodeLat latitude_str, decodeLon longitude_str,
        parseFloat pressure_altitude_str, parseFloat gps_altitude_str with
  | some lat, some lon, some pa, some ga =>
    some { timestamp := ⟨d, t⟩, latitude := lat, longitude := lon,
           av_flag := av_flag_str == ("A".toList),
           pressure_altitude := pa, gps_altitude := ga }
  | _, _, _, _ => none

/-- `_parse_position`, with the source's order of failure points: the length
check first, then `strptime` on the time field, then the read of
`self.flight_date` (raising when unset), then the numeric field decodes;
only the fully decoded record is appended, as the very last statement. -/
def parse_position (self : IGCParser) (line : PyStr) : IGCParser × Option Err :=
  if line.length < 35 then (self, some Err.RecordTooShort)
  else
    match parseTimeHHMMSS (pyStrip (pySlice line 1 7)) with
    | none => (self, some Err.MalformedNumericField)
    | some t =>
      match self.flight_date with
      | none => (self, some Err.DateNotYetKnown)
      | some d =>
        match decodeFields t d line with
        | none => (self, some Err.MalformedNumericField)
        | some r =>
          ({ self with position_records := self.position_records ++ [r] }, none)

/-- The record a `B` line decodes to under a given flight date: the
state-independent core of `_parse_position`. -/
def decodeB (d : Date) (line : PyStr) : Option PositionRecord :=
  if line.length < 35 then none
  else
    match parseTimeHHMMSS (pyStrip (pySlice line 1 7)) with
    | none => none
    | some t => decodeFields t d line

/-- The warning message of the classifier's unknown-record branch:
`f"Unknown record type: {line[:1]} in line: {line}"`. -/
def unknownWarning (line : PyStr) : PyStr :=
  ("Unknown record type: ".toList) ++ pySlice line 0 1 ++ (" in line: ".toList) ++ line

/-- `_parse_record`: dispatch on the leading character.  `L` and `G` lines
are only logged at debug level; any other unmatched line (including the
empty line) reaches the `else` branch, which logs a warning. -/
def parse_record (self : IGCParser) (line : PyStr) : IGCParser × Option Err :=
  if pyStartsWith line ("A".toList) = true then parse_manufacturer self line
  else if pyStartsWith line ("H".toList) = true then parse_metadata self line
  else if pyStartsWith line ("B".toList) = true then parse_position self line
  else if pyStartsWith line ("L".toList) = true then (self, none)
  else if pyStartsWith line ("G".toList) = true then (self, none)
  else ({ self with warnings := self.warnings ++ [unknownWarning line] }, none)

/-- `_parse`'s scan loop: strip each line and feed it to `_parse_record`; an
exception aborts the loop, surfacing the state at the abort point together
with the error. -/
def parse : IGCParser → List PyStr → IGCParser × Option Err
  | self, [] => (self, none)
  | self, l :: ls =>
    match parse_record self (pyStrip l) with
    | (s₁, none) => parse s₁ ls
    | (s₁, some e) => (s₁, some e)

/-- The trimmed `B` lines of an input, in file order. -/
def bLines (lines : List PyStr) : List PyStr :=
  (lines.map pyStrip).filter (fun l => pyStartsWith l ("B".toList))

/-! ## Helper lemmas -/

/-- A string passing a `startswith` test decomposes as prefix plus tail. -/
theorem startsWith_ex {l p : PyStr} (h : pyStartsWith l p = true) :
    ∃ t, l = p ++ t := by
  rw [pyStartsWith, List.isPrefixOf_iff_prefix] at h
  obtain ⟨t, ht⟩ := h
  exact ⟨t, ht.symm⟩

/-- A string starts with any prefix of its own prefix. -/
theorem pyStartsWith_append_of_prefix {p q : PyStr} (t : PyStr) (h : q <+: p) :
    pyStartsWith (p ++ t) q = true := by
  rw [pyStartsWith, List.isPrefixOf_iff_prefix]
  exact h.trans (List.prefix_append p t)

/-- A string starts with its own prefix. -/
theorem pyStartsWith_append (p t : PyStr) : pyStartsWith (p ++ t) p = true :=
  pyStartsWith_append_of_prefix t List.prefix_rfl

/-- `_parse_manufacturer` never touches the track. -/
theorem parse_manufacturer_position_records (s : IGCParser) (l : PyStr) :
    ((parse_manufacturer s l).1).position_records = s.position_records := rfl

/-- `_parse_metadata` never touches the track. -/
theorem parse_metadata_position_records (s : IGCParser) (l : PyStr) :
    ((parse_metadata s l).1).position_records = s.position_records := by
  unfold parse_metadata
  split_ifs <;> try rfl
  dsimp only
  split
  · split <;> rfl
  · rfl

/-- On a line that does not start with `B`, `_parse_record` never touches
the track. -/
theorem parse_record_position_records (s : IGCParser) (l : PyStr)
    (hB : pyStartsWith l ("B".toList) = false) :
    ((parse_record s l).1).position_records = s.position_records := by
  unfold parse_record
  split_ifs with h1 h2 h3 h4 h5 <;> try rfl
  · exact parse_metadata_position_records s l
  · rw [hB] at h3; cases h3

/-- On a line that starts with `B`, `_parse_record` dispatches to
`_parse_position`. -/
theorem parse_record_B (s : IGCParser) (t : PyStr) :
    parse_record s (("B".toList) ++ t) = parse_position s (("B".toList) ++ t) := by
  unfold parse_record
  simp [pyStartsWith, List.isPrefixOf]

/-- A successful `_parse_position` call means: the flight date was known,
the line decoded to a record under that date, and exactly that record was
appended at the end of the track. -/
theorem parse_position_ok (s s₁ : IGCParser) (l : PyStr)
    (h : parse_position s l = (s₁, none)) :
    ∃ (d : Date) (r : PositionRecord), s.flight_date = some d ∧
      decodeB d l = some r ∧
      s₁.position_records = s.position_records ++ [r] := by
  by_cases h1 : l.length < 35
  · unfold parse_position at h; rw [if_pos h1] at h; simp at h
  · unfold parse_position at h; rw [if_neg h1] at h
    rcases h2 : parseTimeHHMMSS (pyStrip (pySlice l 1 7)) with _ | t <;>
      simp only [h2] at h
    · exact absurd h (by simp)
    · rcases h3 : s.flight_date with _ | d <;> simp only [h3] at h
      · exact absurd h (by simp)
      · rcases h4 : decodeFields t d l with _ | r <;> simp only [h4] at h
        · exact absurd h (by simp)
        · refine ⟨d, r, rfl, ?_, ?_⟩
          · unfold decodeB; rw [if_neg h1, h2]; exact h4
          · injection h with h5 _
            rw [← h5]

/-- Unfolding of `bLines` on a cons cell. -/
theorem bLines_cons (l : PyStr) (ls : List PyStr) :
    bLines (l :: ls) =
      if pyStartsWith (pyStrip l) ("B".toList) = true then pyStrip l :: bLines ls
      else bLines ls := by
  simp [bLines, List.filter_cons]

/-- The `HFDTEDATE` branch of `_parse_metadata`, extracted: on a line with
that prefix, the first two prefix tests fail and the decoder reaches the
flight-date logic. -/
theorem parse_metadata_hfdtedate (s : IGCParser) (t : PyStr) :
    parse_metadata s (("HFDTEDATE".toList) ++ t) =
      (if (pyStrip ((("HFDTEDATE".toList) ++ t).drop 10)).length = 6 then
        match parseDateDDMMYY (pyStrip ((("HFDTEDATE".toList) ++ t).drop 10)) with
        | some d => ({ s with flight_date := some d }, none)
        | none => (s, some Err.InvalidDateFormat)
      else (s, some Err.InvalidDateFormat)) := by
  unfold parse_metadata
  simp [pyStartsWith, List.isPrefixOf]

/-- On a line with prefix `HFDTEDATE`, `_parse_record` dispatches (through
the `H` branch) to `_parse_metadata`. -/
theorem parse_record_hfdtedate (s : IGCParser) (t : PyStr) :
    parse_record s (("HFDTEDATE".toList) ++ t) =
      parse_metadata s (("HFDTEDATE".toList) ++ t) := by
  unfold parse_record
  simp [pyStartsWith, List.isPrefixOf]

/-! ## The claims -/

/-- Claim C1 (code bug): evaluated at the latitude field `5407121N` — the
example worked in the source's own docstring, "lat 54 degrees 7.121 mins
North" — the decoder of lines 172-175 returns 54 + 7121/60 ≈ 172.68
degrees: the minutes field is never divided by 1000, so the result is not
the documented and claimed 54 + (7121/1000)/60 ≈ 54.1187 degrees. -/
theorem c1_latitude_code_bug :
    ∃ f : PyFloat, decodeLat ("5407121N".toList) = some f ∧
      f.toRat = 54 + 7121 / 60 ∧ f.toRat ≠ 54 + (7121 / 1000) / 60 := by
  refine ⟨⟨10361, 60⟩, by decide, ?_, ?_⟩
  · norm_num [PyFloat.toRat]
  · norm_num [PyFloat.toRat]

/-- The four input lines of the spec's concrete scenario (claim C2). -/
def c2Lines : List PyStr :=
  [("AXBM001 BURNAIR V1.0.0 ID:00000001".toList),
   ("HFDTEDATE100525".toList),
   ("HFPLTPILOTFlorian Trautweiler".toList),
   ("B095532 4650345N 00824866E A 00000 01909".toList)]

/-- Claim C2 counterexample: parsing the four scenario lines does not
succeed — the parse aborts with `InvalidDateFormat` and produces no
position record (the substring of `HFDTEDATE100525` from offset 10 is the
five-character `00525`). -/
theorem c2_scenario_counterexample :
    (parse initState c2Lines).2 = some Err.InvalidDateFormat ∧
      (parse initState c2Lines).1.position_records = [] := by decide

/-- Claim C2 (amended): parsing the four scenario lines sets
`manufacturer_id="XBM"`, `logger_id="001"` and the additional info from the
`A` line, then aborts on the second line with `InvalidDateFormat`, because
the substring of `HFDTEDATE100525` from offset 10 is the five-character
`00525`; the pilot line and the `B` line are never reached and no
`PositionRecord` is produced. -/
theorem c2_scenario_amended :
    parse initState c2Lines =
      ({ flight_date := none, gps_datum := [], pilot_name := [],
         manufacturer_id := ("XBM".toList), logger_id := ("001".toList),
         additional_info := ("BURNAIR V1.0.0 ID:00000001".toList),
         position_records := [], warnings := [] },
       some Err.InvalidDateFormat) := by decide

/-- Claim C4: a `B` line shorter than 35 characters makes the position
decoder fail with `RecordTooShort`, leaving the state — in particular the
track — exactly unchanged. -/
theorem c4_record_too_short (s : IGCParser) (l : PyStr)
    (hB : pyStartsWith l ("B".toList) = true) (hlen : l.length < 35) :
    parse_position s l = (s, some Err.RecordTooShort) := by
  unfold parse_position
  rw [if_pos hlen]

/-- Claim C4 witness: the one-character line `B`. -/
theorem c4_record_too_short_witness :
    parse_position initState ("B".toList) = (initState, some Err.RecordTooShort) :=
  c4_record_too_short initState ("B".toList) (by decide) (by decide)

/-- Claim C5 counterexample: on the one-character line `A` (length 1 < 7)
the manufacturer decoder does not fail with `RecordTooShort` — it succeeds,
and it does assign all three metadata fields (overwriting previous values
with empty strings, since the slices are empty). -/
theorem c5_short_a_counterexample :
    parse_manufacturer
        { initState with
            manufacturer_id := ("OLD1".toList)
            logger_id := ("OLD2".toList)
            additional_info := ("OLD3".toList) } ("A".toList)
      = ({ initState with
            manufacturer_id := []
            logger_id := []
            additional_info := [] }, none) ∧
    (parse_manufacturer
        { initState with
            manufacturer_id := ("OLD1".toList)
            logger_id := ("OLD2".toList)
            additional_info := ("OLD3".toList) } ("A".toList)).2
      ≠ some Err.RecordTooShort := by decide

/-- Claim C5 (amended): an `A` line with fewer than 7 characters is not
rejected: the classifier routes it to the manufacturer decoder, which
succeeds and assigns `manufacturer_id`, `logger_id` and `additional_info`
the trimmed (possibly empty or truncated) slices `[1,4)`, `[4,7)` and
`[7,end)` of the line. -/
theorem c5_short_a_amended (s : IGCParser) (l : PyStr)
    (hA : pyStartsWith l ("A".toList) = true) (hlen : l.length < 7) :
    parse_record s l =
      ({ s with manufacturer_id := pyStrip (pySlice l 1 4),
                logger_id := pyStrip (pySlice l 4 7),
                additional_info := pyStrip (l.drop 7) }, none) := by
  obtain ⟨l₁, rfl⟩ := startsWith_ex hA
  unfold parse_record parse_manufacturer
  simp [pyStartsWith, List.isPrefixOf]

/-- Claim C5 witness: the one-character line `A`. -/
theorem c5_short_a_amended_witness :
    parse_record initState ("A".toList) =
      ({ initState with
          manufacturer_id := pyStrip (pySlice ("A".toList) 1 4),
          logger_id := pyStrip (pySlice ("A".toList) 4 7),
          additional_info := pyStrip (("A".toList).drop 7) }, none) :=
  c5_short_a_amended initState ("A".toList) (by decide) (by decide)

/-- Claim C8 counterexample: with two records of the same kind in the
input, the field is assigned a second time — the final value comes from the
second record, whereas parsing the first line alone leaves the first
record's value.  Shown both for two `A` records (`manufacturer_id`) and for
the claim's own example of two `HFDTEDATE` records (`flight_date`). -/
theorem c8_counterexample :
    (parse initState [("AXBM001x".toList), ("AQRS777y".toList)]).1.manufacturer_id
        = ("QRS".toList) ∧
    (parse initState [("AXBM001x".toList)]).1.manufacturer_id = ("XBM".toList) ∧
    ("QRS".toList) ≠ ("XBM".toList) ∧
    (parse initState
        [("HFDTEDATE:100525".toList), ("HFDTEDATE:110625".toList)]).1.flight_date
        = some ⟨2025, 6, 11⟩ ∧
    (parse initState [("HFDTEDATE:100525".toList)]).1.flight_date
        = some ⟨2025, 5, 10⟩ ∧
    (some (⟨2025, 6, 11⟩ : Date)) ≠ (some (⟨2025, 5, 10⟩ : Date)) := by decide

/-- Claim C8 (amended): metadata fields are not write-once: every record of
a given kind that its decoder accepts re-assigns the field, so a later
accepted record of the same kind overwrites the value (last write wins).
The `A` record fields (`manufacturer_id`, `logger_id`, `additional_info`),
`pilot_name` and `gps_datum` are assigned unconditionally by their records;
`flight_date` is assigned by every `HFDTEDATE` record whose six-character
date string parses (a malformed one raises `InvalidDateFormat` without
assigning).  In each conjunct the resulting field value depends only on the
incoming line, never on the previous field value. -/
theorem c8_fields_overwritten :
    (∀ (s : IGCParser) (l : PyStr), pyStartsWith l ("A".toList) = true →
      parse_record s l =
        ({ s with manufacturer_id := pyStrip (pySlice l 1 4),
                  logger_id := pyStrip (pySlice l 4 7),
                  additional_info := pyStrip (l.drop 7) }, none)) ∧
    (∀ (s : IGCParser) (l : PyStr), pyStartsWith l ("HFPLTPILOT".toList) = true →
      parse_record s l = ({ s with pilot_name := pyStrip (l.drop 11) }, none)) ∧
    (∀ (s : IGCParser) (l : PyStr), pyStartsWith l ("HFDTM100GPSDATUM".toList) = true →
      parse_record s l = ({ s with gps_datum := pyStrip (l.drop 17) }, none)) ∧
    (∀ (s : IGCParser) (l : PyStr) (d : Date),
      pyStartsWith l ("HFDTEDATE".toList) = true →
      (pyStrip (l.drop 10)).length = 6 →
      parseDateDDMMYY (pyStrip (l.drop 10)) = some d →
      parse_record s l = ({ s with flight_date := some d }, none)) := by
  refine ⟨?_, ?_, ?_, ?_⟩
  · intro s l hA
    obtain ⟨l₁, rfl⟩ := startsWith_ex hA
    unfold parse_record parse_manufacturer
    simp [pyStartsWith, List.isPrefixOf]
  · intro s l hP
    obtain ⟨l₁, rfl⟩ := startsWith_ex hP
    unfold parse_record parse_metadata
    simp [pyStartsWith, List.isPrefixOf]
  · intro s l hG
    obtain ⟨l₁, rfl⟩ := startsWith_ex hG
    unfold parse_record parse_metadata
    simp [pyStartsWith, List.isPrefixOf]
  · intro s l d hD h6 hsome
    obtain ⟨l₁, rfl⟩ := startsWith_ex hD
    rw [parse_record_hfdtedate, parse_metadata_hfdtedate, if_pos h6]
    simp only [hsome]

/-- Claim C8 witness: one concrete line of each metadata-bearing kind. -/
theorem c8_fields_overwritten_witness :
    parse_record initState ("AQRS777y".toList) =
      ({ initState with
          manufacturer_id := pyStrip (pySlice ("AQRS777y".toList) 1 4),
          logger_id := pyStrip (pySlice ("AQRS777y".toList) 4 7),
          additional_info := pyStrip (("AQRS777y".toList).drop 7) }, none) ∧
    parse_record initState ("HFPLTPILOT:Jo".toList) =
      ({ initState with pilot_name := pyStrip (("HFPLTPILOT:Jo".toList).drop 11) },
       none) ∧
    parse_record initState ("HFDTM100GPSDATUM:WGS-84".toList) =
      ({ initState with
          gps_datum := pyStrip (("HFDTM100GPSDATUM:WGS-84".toList).drop 17) },
       none) ∧
    parse_record initState ("HFDTEDATE:100525".toList) =
      ({ initState with flight_date := some ⟨2025, 5, 10⟩ }, none) :=
  ⟨c8_fields_overwritten.1 initState ("AQRS777y".toList) (by decide),
   c8_fields_overwritten.2.1 initState ("HFPLTPILOT:Jo".toList) (by decide),
   c8_fields_overwritten.2.2.1 initState ("HFDTM100GPSDATUM:WGS-84".toList)
     (by decide),
   c8_fields_overwritten.2.2.2 initState ("HFDTEDATE:100525".toList)
     ⟨2025, 5, 10⟩ (by decide) (by decide) (by decide)⟩

/-- Claim C9 counterexample: a line that is empty after stripping is not
skipped silently — the classifier's unknown-record branch fires and emits a
warning (with an empty record-type field in the message). -/
theorem c9_empty_line_counterexample :
    (parse initState [([] : PyStr)]).1.warnings = [unknownWarning ([] : PyStr)] ∧
    (parse initState [([] : PyStr)]).1.warnings ≠ ([] : List PyStr) := by decide

/-- Claim C9 (amended): a line that is empty after stripping leaves every
metadata field and the track unchanged and does not abort the parse, but it
does emit one unknown-record-type warning — the empty line matches none of
the known leading characters and falls through to the classifier's warning
branch. -/
theorem c9_empty_line_amended (s : IGCParser) (l : PyStr) (rest : List PyStr)
    (h : pyStrip l = ([] : PyStr)) :
    parse s (l :: rest) =
      parse ({ s with warnings := s.warnings ++ [unknownWarning ([] : PyStr)] }) rest := by
  show (match parse_record s (pyStrip l) with
        | (s₁, none) => parse s₁ rest
        | (s₁, some e) => (s₁, some e)) = _
  rw [h]
  rfl

/-- Claim C9 witness: a line consisting of one space, followed by no
further input. -/
theorem c9_empty_line_amended_witness :
    parse initState [[' ']] =
      parse ({ initState with
               warnings := initState.warnings ++ [unknownWarning ([] : PyStr)] }) [] :=
  c9_empty_line_amended initState [' '] [] (by decide)

/-- Claim C3 counterexample: the one-character line `B` is a line starting
with `B` encountered before any `HFDTEDATE` header, yet position decoding
fails with `RecordTooShort`, not `DateNotYetKnown` — the length check of
`_parse_position` runs before the flight date is consulted. -/
theorem c3_before_date_counterexample :
    parse initState [("B".toList)] = (initState, some Err.RecordTooShort) ∧
      Err.RecordTooShort ≠ Err.DateNotYetKnown := by decide

/-- Claim C3 (amended): a `B` line that passes the checks preceding the
flight-date read — length at least 35 and a parseable time field — and is
encountered while the flight date is still unset fails with
`DateNotYetKnown`, and the parse is aborted at that line (the remaining
input is not processed and the state is returned unchanged). -/
theorem c3_before_date_amended (s : IGCParser) (l : PyStr) (rest : List PyStr)
    (hdate : s.flight_date = none)
    (hB : pyStartsWith (pyStrip l) ("B".toList) = true)
    (hlen : ¬ (pyStrip l).length < 35)
    (ht : (parseTimeHHMMSS (pyStrip (pySlice (pyStrip l) 1 7))).isSome = true) :
    parse s (l :: rest) = (s, some Err.DateNotYetKnown) := by
  obtain ⟨t0, ht0⟩ := Option.isSome_iff_exists.mp ht
  have hrec : parse_record s (pyStrip l) = (s, some Err.DateNotYetKnown) := by
    obtain ⟨l₁, hsplit⟩ := startsWith_ex hB
    rw [hsplit] at hlen ht0 ⊢
    rw [parse_record_B]
    unfold parse_position
    rw [if_neg hlen]
    simp only [ht0, hdate]
  show (match parse_record s (pyStrip l) with
        | (s₁, none) => parse s₁ rest
        | (s₁, some e) => (s₁, some e)) = _
  rw [hrec]

/-- Claim C3 witness: a well-formed 35-character `B` line fed to a fresh
parser whose flight date is unset. -/
theorem c3_before_date_amended_witness :
    parse initState [("B1602405407121N00249342WA0028000421".toList)]
      = (initState, some Err.DateNotYetKnown) :=
  c3_before_date_amended initState ("B1602405407121N00249342WA0028000421".toList)
    [] rfl (by decide) (by decide) (by decide)

/-- Claim C6: on a line with prefix `HFDTEDATE`, if the trimmed substring
from offset 10 does not have length exactly 6, or does not parse as a
`DDMMYY` calendar date, the metadata decoder fails with
`InvalidDateFormat`; otherwise it sets `flight_date` to the decoded date
and succeeds. -/
theorem c6_hfdtedate (s : IGCParser) (l : PyStr)
    (h : pyStartsWith l ("HFDTEDATE".toList) = true) :
    (((pyStrip (l.drop 10)).length ≠ 6 ∨ parseDateDDMMYY (pyStrip (l.drop 10)) = none) →
        parse_metadata s l = (s, some Err.InvalidDateFormat)) ∧
    (∀ d : Date, (pyStrip (l.drop 10)).length = 6 →
        parseDateDDMMYY (pyStrip (l.drop 10)) = some d →
        parse_metadata s l = ({ s with flight_date := some d }, none)) := by
  obtain ⟨t, rfl⟩ := startsWith_ex h
  rw [parse_metadata_hfdtedate]
  constructor
  · rintro (hlen | hnone)
    · rw [if_neg hlen]
    · by_cases h6 : (pyStrip ((("HFDTEDATE".toList) ++ t).drop 10)).length = 6
      · rw [if_pos h6]
        simp only [hnone]
      · rw [if_neg h6]
  · intro d h6 hsome
    rw [if_pos h6]
    simp only [hsome]

/-- Claim C6 witness: the line `HFDTEDATE:100525` sets the flight date to
2025-05-10. -/
theorem c6_hfdtedate_witness :
    parse_metadata initState ("HFDTEDATE:100525".toList)
      = ({ initState with flight_date := some ⟨2025, 5, 10⟩ }, none) :=
  (c6_hfdtedate initState ("HFDTEDATE:100525".toList) (by decide)).2
    ⟨2025, 5, 10⟩ (by decide) (by decide)

/-- Claim C7: on every input the parse accepts, the resulting track extends
the initial one by exactly one record per trimmed `B` line, in file order:
the i-th `B` line decodes (under the flight date in effect at that point)
to the i-th appended `PositionRecord`, and the track contains nothing
else. -/
theorem c7_track_order (lines : List PyStr) (s s' : IGCParser)
    (h : parse s lines = (s', none)) :
    ∃ rs : List PositionRecord,
      s'.position_records = s.position_records ++ rs ∧
      rs.length = (bLines lines).length ∧
      ∀ (i : Nat) (bl : PyStr), (bLines lines).get? i = some bl →
        ∃ (d : Date) (r : PositionRecord), rs.get? i = some r ∧ decodeB d bl = some r := by
  revert h
  induction lines generalizing s with
  | nil =>
    intro h
    have hs : s = s' := by simpa [parse] using h
    subst hs
    refine ⟨[], by simp, by simp [bLines], ?_⟩
    intro i bl hbl
    simp [bLines] at hbl
  | cons l ls ih =>
    intro h
    have hstep : (match parse_record s (pyStrip l) with
        | (s₁, none) => parse s₁ ls
        | (s₁, some e) => (s₁, some e)) = (s', none) := h
    rcases hrec : parse_record s (pyStrip l) with ⟨s₁, e⟩
    rw [hrec] at hstep
    cases e with
    | some e0 => simp at hstep
    | none =>
      simp only [] at hstep
      obtain ⟨rs₁, hrecs, hlen, hidx⟩ := ih s₁ hstep
      by_cases hB : pyStartsWith (pyStrip l) ("B".toList) = true
      · obtain ⟨t0, hsplit⟩ := startsWith_ex hB
        have hpp : parse_position s (pyStrip l) = (s₁, none) := by
          rw [hsplit, ← parse_record_B, ← hsplit]
          exact hrec
        obtain ⟨d, r, hfd, hdec, hs₁⟩ := parse_position_ok s s₁ (pyStrip l) hpp
        refine ⟨r :: rs₁, ?_, ?_, ?_⟩
        · rw [hrecs, hs₁]
          simp
        · rw [bLines_cons, if_pos hB]
          simp [hlen]
        · intro i bl hbl
          rw [bLines_cons, if_pos hB] at hbl
          cases i with
          | zero =>
            simp only [List.get?] at hbl
            injection hbl with hbl
            subst hbl
            exact ⟨d, r, rfl, hdec⟩
          | succ i =>
            exact hidx i bl hbl
      · have hB0 : pyStartsWith (pyStrip l) ("B".toList) = false := by
          revert hB
          cases pyStartsWith (pyStrip l) ("B".toList) <;> simp
        have hrecs0 : s₁.position_records = s.position_records := by
          have hpr := parse_record_position_records s (pyStrip l) hB0
          rw [hrec] at hpr
          exact hpr
        refine ⟨rs₁, ?_, ?_, ?_⟩
        · rw [hrecs, hrecs0]
        · rw [bLines_cons, if_neg hB]
          exact hlen
        · intro i bl hbl
          rw [bLines_cons, if_neg hB] at hbl
          exact hidx i bl hbl

/-- A successfully parsed two-line input: a date header and one `B` line. -/
def demoLines : List PyStr :=
  [("HFDTEDATE:100525".toList), ("B1602405407121N00249342WA0028000421".toList)]

/-- The record decoded from the demo `B` line (values as the source
computes them; the latitude is 54 + 7121/60, the longitude is negated for
hemisphere `W`). -/
def demoRecord : PositionRecord :=
  { timestamp := ⟨⟨2025, 5, 10⟩, ⟨16, 2, 40⟩⟩, latitude := ⟨10361, 60⟩,
    longitude := ⟨-49462, 60⟩, av_flag := true,
    pressure_altitude := ⟨280, 1⟩, gps_altitude := ⟨421, 1⟩ }

/-- The parser state after the demo input. -/
def demoFinal : IGCParser :=
  { flight_date := some ⟨2025, 5, 10⟩, gps_datum := [], pilot_name := [],
    manufacturer_id := [], logger_id := [], additional_info := [],
    position_records := [demoRecord], warnings := [] }

/-- Claim C7 witness: the demo input parses successfully and its single `B`
line yields the single track record. -/
theorem c7_track_order_witness :
    ∃ rs : List PositionRecord,
      demoFinal.position_records = initState.position_records ++ rs ∧
      rs.length = (bLines demoLines).length ∧
      ∀ (i : Nat) (bl : PyStr), (bLines demoLines).get? i = some bl →
        ∃ (d : Date) (r : PositionRecord), rs.get? i = some r ∧ decodeB d bl = some r :=
  c7_track_order demoLines initState demoFinal (by decide)

/-- Claim C10: decoding a `B` line is atomic — whenever `_parse_position`
fails, for any reason (line too short, unparseable time field, unknown
flight date, or a malformed coordinate or altitude field), the parser state
is returned exactly as it was: no record is appended and no field is
modified.  (In the source the only mutation, the append, is the last
statement, after every failure point.) -/
theorem c10_b_decode_atomic (s : IGCParser) (l : PyStr)
    (hB : pyStartsWith l ("B".toList) = true)
    (e : Err) (he : (parse_position s l).2 = some e) :
    (parse_position s l).1 = s := by
  by_cases h1 : l.length < 35
  · unfold parse_position
    rw [if_pos h1]
  · unfold parse_position at he ⊢
    rw [if_neg h1] at he ⊢
    rcases h2 : parseTimeHHMMSS (pyStrip (pySlice l 1 7)) with _ | t
    · simp only [h2]
    · simp only [h2] at he ⊢
      rcases h3 : s.flight_date with _ | d
      · simp only [h3]
      · simp only [h3] at he ⊢
        rcases h4 : decodeFields t d l with _ | r
        · simp only [h4]
        · simp [h4] at he

/-- Claim C10 witness: the one-character line `B` fails (with
`RecordTooShort`) and leaves the state unchanged. -/
theorem c10_b_decode_atomic_witness :
    (parse_position initState ("B".toList)).1 = initState :=
  c10_b_decode_atomic initState ("B".toList) (by decide) Err.RecordTooShort (by decide)

end IGC
